import Mathlib

/-
Verification development for the WhatsApp onboarding bot
(mauricevolkwyn0-bit/whatsapp).

Shallow embedding of the conversation state machine, input validators and
finalization transaction of the newest registration flow
(app/api/whatsapp/webhook/route.ts as it appears in the repository, together
with lib/utils/validation.ts, lib/whatsapp/api.ts and
lib/whatsapp/state-manager.ts).  Pure functions are translated directly;
stateful code is modelled by explicit state passing over an environment
record holding the per-conversation session row, the persistence tables and
a trace of outbound messages and session writes.  External collaborators
(WhatsApp media download, storage, email) are abstracted: media download is
an explicit fallible oracle parameter, storage upload is modelled as a
total upsert into a storage table, email sending (fire-and-forget in the
source, failures swallowed) is not modelled.
-/

-- ═════════════════════════════════════════════════════════════════
-- Input Normalizer (lib/utils/validation.ts)
-- ═════════════════════════════════════════════════════════════════

/-- Whitespace removal, `idNumber.replace(/\s/g, "")`.  On the inputs that
matter (digits and ASCII separators) the JavaScript class coincides with
`Char.isWhitespace`. -/
def jsStripWs (s : String) : List Char :=
  s.toList.filter (fun c => !c.isWhitespace)

/-- `toLowerCase()`, character by character. -/
def jsToLower (s : String) : String :=
  String.mk (s.toList.map Char.toLower)

/-- `trim()`: drop whitespace from both ends. -/
def trimList (l : List Char) : List Char :=
  ((l.dropWhile Char.isWhitespace).reverse.dropWhile Char.isWhitespace).reverse

def jsTrim (s : String) : String :=
  String.mk (trimList s.toList)

/-- Numeric value of a digit character (`parseInt` on a single digit). -/
def digitVal (c : Char) : Nat :=
  c.toNat - 48

/-- `parseInt(cleaned.substring(i, i+2))` on an all-digit string. -/
def twoDigitNum (l : List Char) (i : Nat) : Nat :=
  10 * digitVal (l.getD i '0') + digitVal (l.getD (i + 1) '0')

/-- `parseInt(cleaned.substring(6, 10))` on an all-digit string. -/
def fourDigitNum (l : List Char) (i : Nat) : Nat :=
  1000 * digitVal (l.getD i '0') + 100 * digitVal (l.getD (i + 1) '0')
    + 10 * digitVal (l.getD (i + 2) '0') + digitVal (l.getD (i + 3) '0')

/-- The Luhn loop of `isValidSAIDNumber`: walks the digits from the
rightmost, `isSecond` starting false and toggling, doubling-and-reducing
every second digit.  The argument list here is already reversed. -/
def luhnAcc : List Nat → Bool → Nat
  | [], _ => 0
  | d :: ds, second =>
      (if second then (if d * 2 > 9 then d * 2 - 9 else d * 2) else d)
        + luhnAcc ds (!second)

/-- Luhn sum over the digits in their original order. -/
def luhnSum (digits : List Nat) : Nat :=
  luhnAcc digits.reverse false

/-- `isValidSAIDNumber` from lib/utils/validation.ts: strips whitespace,
requires exactly 13 digits, month between 1 and 12, day between 1 and 31,
and the Luhn sum to be 0 mod 10.  (The source also parses the 2-digit year
but never constrains it.) -/
def isValidSAIDNumber (idNumber : String) : Bool :=
  let cleaned := jsStripWs idNumber
  if ¬ (cleaned.length = 13 ∧ cleaned.all Char.isDigit = true) then false
  else
    let month := twoDigitNum cleaned 2
    let day := twoDigitNum cleaned 4
    if month < 1 ∨ month > 12 then false
    else if day < 1 ∨ day > 31 then false
    else decide (luhnSum (cleaned.map digitVal) % 10 = 0)

/-- Calendar date, used to pass the current date into the age computation
of `parseSAIDNumber` (the source reads `new Date()`). -/
structure SimpleDate where
  year : Int
  month : Int
  day : Int
deriving DecidableEq

/-- Result record of `parseSAIDNumber`. -/
structure SAIDInfo where
  dateOfBirth : String
  age : Int
  gender : String
  citizenship : String
deriving DecidableEq

/-- Left-pad a two-digit field, `toString().padStart(2, "0")`. -/
def pad2 (n : Nat) : String :=
  if n < 10 then ("0") ++ toString n else toString n

/-- Month lengths of the JavaScript `Date` calendar (proleptic Gregorian
with leap years), used to model `new Date(year, month-1, day)`. -/
def jsDaysInMonth (y m : Nat) : Nat :=
  if m = 2 then (if ((y % 4 == 0) && !(y % 100 == 0)) || (y % 400 == 0) then 29 else 28)
  else if m = 4 ∨ m = 6 ∨ m = 9 ∨ m = 11 then 30
  else 31

/-- `new Date(y, m-1, d)` for m in 1..12 and d in 1..31: JavaScript
normalizes an overflowing day into the next month (at most 3 days over, so
a single carry suffices; December has 31 days, so the year never rolls in
this range). -/
def jsDateOfYMD (y m d : Nat) : Nat × Nat × Nat :=
  let dim := jsDaysInMonth y m
  if d > dim then (if m = 12 then (y + 1, 1, d - dim) else (y, m + 1, d - dim))
  else (y, m, d)

/-- `parseSAIDNumber` from lib/utils/validation.ts: re-validates the
whitespace-stripped string, then decodes birth date (2-digit year ≤ 30 maps
into the 2000s), gender from the 4-digit sequence number, citizenship from
digit 10, and the age relative to `today`, comparing against the
`Date`-normalized birth month and day (the `dateOfBirth` string, as in the
source, uses the raw digits). -/
def parseSAIDNumber (today : SimpleDate) (idNumber : String) : Option SAIDInfo :=
  let cleaned := jsStripWs idNumber
  if ¬ (isValidSAIDNumber (String.mk cleaned) = true) then none
  else
    let year := twoDigitNum cleaned 0
    let month := twoDigitNum cleaned 2
    let day := twoDigitNum cleaned 4
    let gender := if 5000 ≤ fourDigitNum cleaned 6 then ("Male") else ("Female")
    let citizenship :=
      if cleaned.getD 10 '0' == '0' then ("SA Citizen") else ("Permanent Resident")
    let fullYear := if year ≤ 30 then 2000 + year else 1900 + year
    let birth := jsDateOfYMD fullYear month day
    let monthDiff := today.month - (birth.2.1 : Int)
    let baseAge := today.year - (birth.1 : Int)
    let age :=
      if monthDiff < 0 ∨ (monthDiff = 0 ∧ today.day < (birth.2.2 : Int))
      then baseAge - 1 else baseAge
    some { dateOfBirth := toString fullYear ++ "-" ++ pad2 month ++ "-" ++ pad2 day
           , age := age, gender := gender, citizenship := citizenship }

/-- `isValidEmail`: the regex test of the shape local `@` domain `.` tld,
where none of the three parts may contain whitespace or a second `@`.
A string matches the anchored pattern exactly when it has a single `@`,
a nonempty whitespace-free local part, and a whitespace-free domain with a
dot that is neither its first nor its last character. -/
def noWsNoAt (l : List Char) : Bool :=
  l.all (fun c => !c.isWhitespace && !(c == '@'))

/-- Split a character list at every `@`. -/
def splitAtSign (l : List Char) : List (List Char) :=
  match l with
  | [] => [[]]
  | c :: rest =>
    let r := splitAtSign rest
    if c == '@' then [] :: r
    else
      match r with
      | [] => [[c]]
      | h :: t => (c :: h) :: t

def isValidEmail (email : String) : Bool :=
  match splitAtSign (jsToLower email).toList with
  | [localPart, domain] =>
      localPart.length > 0 && noWsNoAt localPart && noWsNoAt domain
        && domain.length > 0
        && ((domain.drop 1).dropLast.contains '.')
  | _ => false

/-- `sanitizeInput`: trims, then removes angle brackets. -/
def sanitizeInput (input : String) : String :=
  String.mk ((trimList input.toList).filter (fun c => !(c == '<' || c == '>')))

-- ═════════════════════════════════════════════════════════════════
-- Phone canonicalizer (lib/whatsapp/api.ts, formatPhoneNumber)
-- ═════════════════════════════════════════════════════════════════

/-- `cleaned.startsWith("27")`. -/
def startsWith27 (l : List Char) : Bool :=
  match l with
  | a :: b :: _ => a == '2' && b == '7'
  | _ => false

/-- Body of `formatPhoneNumber` after the non-digit strip: a leading `0` is
replaced by `27`; a result not starting with `27` gets `27` prepended. -/
def fmtDigits (cleaned : List Char) : List Char :=
  let c1 := if cleaned.head? = some '0' then '2' :: '7' :: cleaned.tail else cleaned
  if startsWith27 c1 then c1 else '2' :: '7' :: c1

/-- `formatPhoneNumber` from lib/whatsapp/api.ts. -/
def formatPhoneNumber (phone : String) : String :=
  String.mk (fmtDigits (phone.toList.filter Char.isDigit))

-- ═════════════════════════════════════════════════════════════════
-- Job-title catalog and list-row construction
-- (app/api/whatsapp/webhook/route.ts, JOB_TITLES / handleCategorySelection)
-- ═════════════════════════════════════════════════════════════════

structure JobTitle where
  id : String
  category : String
  title : String
  required_certificates : List String
deriving DecidableEq

def JOB_TITLES : List JobTitle :=
  [ { id := "55ffbb89-14fa-4eb8-9f51-8ddcb5d2da42", category := "general_worker"
      , title := "General Mine Worker"
      , required_certificates := ["ID Document", "Medical Certificate"] }
  , { id := "66bee395-d051-4e62-b2d0-342e4c8f0d75", category := "general_worker"
      , title := "Surface Worker"
      , required_certificates := ["ID Document", "Medical Certificate"] }
  , { id := "e8aff06e-9373-4548-880a-a892b2aa4990", category := "general_worker"
      , title := "Helper"
      , required_certificates := ["ID Document"] }
  , { id := "9b157f2f-fa57-42c4-8a4f-bd1ae7612185", category := "semi_skilled"
      , title := "Drill Operator"
      , required_certificates := ["Drill Operator Certificate", "Medical Certificate"] }
  , { id := "dd61c9ba-7b5b-4693-ba69-f1e997cab316", category := "semi_skilled"
      , title := "Machine Operator"
      , required_certificates := ["Machine Operator License", "Safety Certificate"] }
  , { id := "d0f481ed-2d91-4d08-8fc6-0aff60201687", category := "semi_skilled"
      , title := "Winch Operator"
      , required_certificates := ["Winch Operator Certificate"] }
  , { id := "22668ddf-3acd-44c5-917d-02c55c3f414b", category := "semi_skilled"
      , title := "Plant Operator"
      , required_certificates := ["Plant Operator License"] }
  , { id := "88cec300-a19f-4b9a-88bc-a69bc6357b62", category := "skilled"
      , title := "Electrician"
      , required_certificates := ["Trade Test Certificate", "Wireman License"] }
  , { id := "5e6d9c95-2bd6-4dbd-a273-e5207d21aed0", category := "skilled"
      , title := "Fitter"
      , required_certificates := ["Trade Test Certificate"] }
  , { id := "78453f90-c145-4ed5-922a-4f106ed2d06e", category := "skilled"
      , title := "Welder"
      , required_certificates := ["Trade Test Certificate", "Welding Certificate"] }
  , { id := "4d6988f7-9995-4048-8569-3ebb5e630837", category := "skilled"
      , title := "Boilermaker"
      , required_certificates := ["Trade Test Certificate"] }
  , { id := "dd4a2bd7-677b-4310-8a04-683de46599e0", category := "skilled"
      , title := "Diesel Mechanic"
      , required_certificates := ["Trade Test Certificate"] }
  , { id := "bb0e14f4-28d7-41fa-9199-6e6800b58cc0", category := "skilled"
      , title := "Artisan"
      , required_certificates := ["Red Seal / Trade Test"] }
  , { id := "ba99711e-e0b8-4ebd-99ba-225aaa9e7c50", category := "professional"
      , title := "Mine Engineer"
      , required_certificates := ["Engineering Degree", "Professional Registration"] }
  , { id := "f76a8ba6-910e-4a9e-840b-17c88684d473", category := "professional"
      , title := "Safety Officer"
      , required_certificates := ["Safety Management Certificate", "SAMTRAC"] }
  , { id := "6e64ffad-c71a-433b-a97e-8291d7dbfd22", category := "professional"
      , title := "Mine Supervisor"
      , required_certificates := ["Blasting Certificate", "Supervisory Certificate"] }
  , { id := "0107ae38-bb4e-479b-b7b6-b821ecf8d02f", category := "professional"
      , title := "Shift Boss"
      , required_certificates := ["Blasting Certificate", "Mine Managers Certificate"] }
  , { id := "1635255c-00cb-461c-8b83-aa55d82771a6", category := "professional"
      , title := "Mine Manager"
      , required_certificates := ["Mine Managers Certificate of Competency"] }
  , { id := "d3e3d82e-0dbf-4d5e-a31a-9b6b35efe83d", category := "professional"
      , title := "Surveyor"
      , required_certificates := ["Surveying Degree", "Professional Registration"] } ]

structure ListRow where
  id : String
  title : String
  description : String
deriving DecidableEq

/-- The WhatsApp row-title truncation of `handleCategorySelection`:
`title.length > 24` becomes `title.substring(0, 21) + "..."`. -/
def truncatedDisplayTitle (title : String) : String :=
  if title.length > 24 then String.mk (title.toList.take 21) ++ "..." else title

/-- The row construction of `handleCategorySelection`: truncated display
title plus a certificate-count description. -/
def mkJobTitleRow (job : JobTitle) : ListRow :=
  let certCount := job.required_certificates.length
  let certWord := if certCount = 1 then ("cert") else ("certs")
  { id := job.id
    , title := truncatedDisplayTitle job.title
    , description := toString certCount ++ " " ++ certWord ++ " required" }

/-- `getCategoryLabel`. -/
def getCategoryLabel (category : String) : String :=
  if category = "general_worker" then ("General Worker")
  else if category = "semi_skilled" then ("Semi-Skilled")
  else if category = "skilled" then ("Skilled Trades")
  else if category = "professional" then ("Professional")
  else category

/-- `getDocumentTypeEnum`: canonical document-type codes, unknown labels
fall back to the generic code. -/
def getDocumentTypeEnum (docName : String) : String :=
  if docName = "ID Document" then ("id_document")
  else if docName = "Selfie" then ("selfie")
  else if docName = "Medical Certificate" then ("medical_certificate")
  else if docName = "Drill Operator Certificate" then ("drill_operator_certificate")
  else if docName = "Machine Operator License" then ("machine_operator_license")
  else if docName = "Safety Certificate" then ("safety_certificate")
  else if docName = "Winch Operator Certificate" then ("winch_operator_certificate")
  else if docName = "Plant Operator License" then ("plant_operator_license")
  else if docName = "Trade Test Certificate" then ("trade_test_certificate")
  else if docName = "Wireman License" then ("wireman_license")
  else if docName = "Welding Certificate" then ("welding_certificate")
  else if docName = "Red Seal / Trade Test" then ("red_seal")
  else if docName = "Engineering Degree" then ("engineering_degree")
  else if docName = "Professional Registration" then ("professional_registration")
  else if docName = "Safety Management Certificate" then ("safety_management_certificate")
  else if docName = "SAMTRAC" then ("samtrac")
  else if docName = "Blasting Certificate" then ("blasting_certificate")
  else if docName = "Supervisory Certificate" then ("supervisory_certificate")
  else if docName = "Mine Managers Certificate" then ("mine_managers_certificate")
  else if docName = "Mine Managers Certificate of Competency" then ("mine_managers_certificate")
  else if docName = "Surveying Degree" then ("surveying_degree")
  else ("other")

-- ═════════════════════════════════════════════════════════════════
-- Conversation state machine: data model
-- (lib/whatsapp/state-manager.ts and the webhook route)
-- ═════════════════════════════════════════════════════════════════

/-- The conversation steps exercised by the newest registration flow.
The source union type lists further legacy flow states; they only reach the
router's default branch and are collapsed here into the same role via the
default match arm. -/
inductive ConversationState where
  | IDLE
  | APPLICANT_REG_CONSENT
  | APPLICANT_REG_ID_NUMBER
  | APPLICANT_REG_ID_UPLOAD
  | APPLICANT_REG_SELFIE
  | APPLICANT_REG_EMAIL
  | APPLICANT_REG_LOCATION
  | APPLICANT_REG_SELECTING_CATEGORY
  | APPLICANT_REG_SELECTING_TITLE
  | UPLOADING_REQUIRED_DOCS
deriving DecidableEq

/-- A staged document held in the session payload
(base64 content, mime type, suggested file name). -/
structure DocData where
  base64 : String
  mimeType : String
  fileName : String
deriving DecidableEq

/-- The open `data` payload of a conversation session, projected to the
keys the newest flow reads or writes.  Absent keys are `none`. -/
structure StateData where
  id_number : Option String := none
  first_name : Option String := none
  last_name : Option String := none
  date_of_birth : Option String := none
  age : Option Int := none
  gender : Option String := none
  home_affairs_verified : Option Bool := none
  id_document : Option DocData := none
  selfie : Option DocData := none
  email : Option String := none
  location : Option String := none
  selected_category : Option String := none
  selected_title_id : Option String := none
  selected_title : Option String := none
  pending_documents : Option (List String) := none
  uploaded_documents : Option (List (String × DocData)) := none
  applicant_id : Option String := none
  user_type : Option String := none
deriving DecidableEq

/-- One row of `whatsapp_conversation_states` (for the single conversation
under consideration). -/
structure Session where
  current_state : ConversationState
  data : StateData
deriving DecidableEq

/-- Outbound messages handed to the messaging collaborator.  Bodies are
abbreviated renderings of the source templates; which message is sent, and
whether any is sent, is what the claims depend on. -/
inductive OutMsg where
  | text (body : String)
  | buttons (body : String)
  | list (body : String) (sectionTitle : String) (rows : List ListRow)
deriving DecidableEq

structure AuthUser where
  id : String
  email : Option String
  phone : String
deriving DecidableEq

structure ProfileRow where
  id : String
  user_type : String
  email : Option String
  cellphone : String
  status : String
deriving DecidableEq

structure ApplicantRow where
  id : String
  id_number : Option String
  first_name : Option String
  last_name : Option String
  date_of_birth : Option String
  gender : Option String
  age : Option Int
  whatsapp_number : String
  street_address : Option String
  job_title_id : Option String
deriving DecidableEq

structure DocumentRow where
  applicant_id : String
  document_type : String
  document_name : String
  document_url : String
  status : String
deriving DecidableEq

structure StorageObject where
  path : String
  base64 : String
  mimeType : String
deriving DecidableEq

/-- The persistence collaborator: auth users, profile rows, applicant
profiles, applicant documents and blob storage, plus a fresh-id counter for
`createUser`. -/
structure Db where
  authUsers : List AuthUser
  profiles : List ProfileRow
  applicants : List ApplicantRow
  applicant_documents : List DocumentRow
  storage : List StorageObject
  nextId : Nat
deriving DecidableEq

def Db.init : Db :=
  { authUsers := [], profiles := [], applicants := []
    , applicant_documents := [], storage := [], nextId := 0 }

/-- The world visible to one conversation: the stored session (if any), the
database, the outbound trace, the trace of session writes, an
instrumentation counter of finalization invocations, and the current date
(for the age computation). -/
structure Env where
  session : Option Session
  db : Db
  outbox : List OutMsg
  writes : List Session
  finalizeCount : Nat
  today : SimpleDate
deriving DecidableEq

/-- `sendTextMessage`. -/
def sendText (body : String) (env : Env) : Env :=
  { env with outbox := env.outbox ++ [OutMsg.text body] }

/-- `sendInteractiveButtons` (buttons abstracted into the body). -/
def sendButtons (body : String) (env : Env) : Env :=
  { env with outbox := env.outbox ++ [OutMsg.buttons body] }

/-- `sendInteractiveList` with a single section, as used by the flow. -/
def sendList (body : String) (sectionTitle : String) (rows : List ListRow) (env : Env) : Env :=
  { env with outbox := env.outbox ++ [OutMsg.list body sectionTitle rows] }

/-- `updateConversationState`: upsert of the full session row, recorded in
the write trace. -/
def updateConversationState (newState : ConversationState) (data : StateData) (env : Env) : Env :=
  let row : Session := { current_state := newState, data := data }
  { env with session := some row, writes := env.writes ++ [row] }

/-- JavaScript object-key assignment `uploadedDocs[currentDoc] = docData`:
replace an existing binding in place or append a new one. -/
def setDoc (m : List (String × DocData)) (k : String) (v : DocData) : List (String × DocData) :=
  if m.any (fun kv => kv.1 == k)
  then m.map (fun kv => if kv.1 == k then (k, v) else kv)
  else m ++ [(k, v)]

/-- Media download oracle (`downloadDocumentAsBase64`): WhatsApp media
fetch is external and fallible. -/
def MediaFetch : Type :=
  String → String → Except String DocData

-- ═════════════════════════════════════════════════════════════════
-- Message templates (abbreviated bodies of the source prompts)
-- ═════════════════════════════════════════════════════════════════

def msg_menu_help : String := "Type MENU for options or HELP for assistance."
def msg_type_menu : String := "Type MENU for options."
def msg_help : String := "JustWork Mining Help. Commands: MENU, HELP."
def msg_upload_or_skip : String :=
  "Please upload the document as an image or PDF, or type SKIP to continue without it."
def msg_upload_or_skip_short : String := "Please upload as image or PDF, or type SKIP."
def msg_upload_image_or_pdf : String := "Please upload as an image or PDF."
def msg_upload_failed : String := "Upload failed. Please try again."
def msg_registration_failed : String := "Registration failed. Please type MENU to try again."
def msg_what_next : String := "What would you like to do?"
def msg_welcome_consent : String :=
  "Welcome to JustWork Mining! Are you sure you will allow us to capture your personal information?"
def msg_consent_yes_next : String :=
  "Thank you for your consent! Please enter your 13-digit SA ID number."
def msg_consent_no : String := "Thank you for your interest in JustWork Mining!"
def msg_invalid_id : String :=
  "Invalid ID number format. Please enter a valid 13-digit SA ID number."
def msg_could_not_validate : String := "Could not validate ID. Please try again."
def msg_id_not_found : String :=
  "ID not found in Home Affairs database. Please verify and try again."
def msg_id_doc_received : String := "ID document received! Now please upload a selfie."
def msg_selfie_received : String := "Selfie received! Please enter your email address."
def msg_invalid_email : String := "Invalid email. Please try again."
def msg_location_typed_prompt : String :=
  "Location received, but please type your city or town name instead."
def msg_select_category : String := "Select Your Category. What type of work are you looking for?"
def msg_select_title : String :=
  "Select Your Job Title. Choose the position you are qualified for."
def msg_no_titles : String := "No titles found for this category."
def msg_invalid_title : String := "Invalid title selection."
def msg_jobs_soon : String := "Job listings feature coming soon!"
def msg_apps_soon : String := "Applications feature coming soon!"
def msg_profile_soon : String := "Profile update feature coming soon!"

/-- The undefined-interpolation behavior of JavaScript template literals. -/
def optStr (o : Option String) : String :=
  o.getD ("undefined")

def msg_existing_menu (firstName : String) : String :=
  "Hi (" ++ firstName ++ ")! What would you like to do?"
def msg_id_verified (firstName lastName : String) : String :=
  "Welcome (" ++ firstName ++ ") " ++ lastName
    ++ "! Please upload a clear photo of your ID Document."
def msg_email_saved (email : String) : String :=
  "Email saved: " ++ email ++ ". Please enter your location."
def msg_title_selected_nodocs (title : String) : String :=
  "Selected (" ++ title ++ "). No additional documents required. Completing your registration."
def msg_title_selected_docs (title firstDoc : String) : String :=
  "Selected (" ++ title ++ "). Please upload: " ++ firstDoc
    ++ ". Send as image or PDF or type SKIP."
def msg_doc_received (currentDoc nextDoc : String) : String :=
  "Received (" ++ currentDoc ++ "). Next: " ++ nextDoc ++ ". Upload now or type SKIP."
def msg_skipped_next (nextDoc : String) : String :=
  "Skipped. Next: " ++ nextDoc ++ ". Upload now or type SKIP."
def msg_registration_complete (d : StateData) : String :=
  "Registration Complete! Welcome (" ++ optStr d.first_name ++ "). Position: "
    ++ optStr d.selected_title ++ ". Location: " ++ optStr d.location

-- ═════════════════════════════════════════════════════════════════
-- Persistence operations used by the Finalization Transaction
-- ═════════════════════════════════════════════════════════════════

def dupUserErr : String := "user already registered"
def dupKeyErr : String := "duplicate key value violates unique constraint"

instance exceptDecEq {ε α : Type} [DecidableEq ε] [DecidableEq α] :
    DecidableEq (Except ε α) := fun a b =>
  match a, b with
  | Except.error x, Except.error y =>
    if h : x = y then isTrue (by rw [h])
    else isFalse (by intro hc; cases hc; exact h rfl)
  | Except.ok x, Except.ok y =>
    if h : x = y then isTrue (by rw [h])
    else isFalse (by intro hc; cases hc; exact h rfl)
  | Except.error _, Except.ok _ => isFalse (by intro hc; cases hc)
  | Except.ok _, Except.error _ => isFalse (by intro hc; cases hc)

/-- `supabase.auth.admin.createUser`: rejects a duplicate contact (email or
phone unique in the auth table), otherwise mints a fresh id. -/
def Db.createUser (db : Db) (email : Option String) (phone : String) :
    Except String (AuthUser × Db) :=
  if db.authUsers.any (fun u => (email.isSome && u.email == email) || u.phone == phone)
  then Except.error dupUserErr
  else
    let user : AuthUser := { id := toString db.nextId, email := email, phone := phone }
    Except.ok (user, { db with authUsers := db.authUsers ++ [user], nextId := db.nextId + 1 })

/-- `supabase.from("profiles").insert(...)`: plain insert, primary key
unique. -/
def Db.insertProfile (db : Db) (p : ProfileRow) : Except String Db :=
  if db.profiles.any (fun q => q.id == p.id) then Except.error dupKeyErr
  else Except.ok { db with profiles := db.profiles ++ [p] }

/-- `supabase.from("applicant_profiles").insert(...)`. -/
def Db.insertApplicant (db : Db) (a : ApplicantRow) : Except String Db :=
  if db.applicants.any (fun q => q.id == a.id) then Except.error dupKeyErr
  else Except.ok { db with applicants := db.applicants ++ [a] }

/-- `supabase.from("applicant_documents").insert(...)`: the source does not
check this insert result, so it is modelled as a total append. -/
def Db.insertDocumentRows (db : Db) (applicantId : String) (urls : List (String × String)) : Db :=
  { db with applicant_documents := db.applicant_documents
      ++ urls.map (fun kv =>
          { applicant_id := applicantId, document_type := getDocumentTypeEnum kv.1
            , document_name := kv.1, document_url := kv.2, status := "pending" }) }

def publicUrl (path : String) : String :=
  "https://storage.example/applicant-documents/" ++ path

/-- Storage upload with `upsert: true`. -/
def storageUpsert (db : Db) (path : String) (d : DocData) : Db :=
  { db with storage := db.storage.filter (fun o => !(o.path == path))
      ++ [{ path := path, base64 := d.base64, mimeType := d.mimeType }] }

/-- `uploadAllDocumentsToStorage`: walks the combined document record,
skipping absent entries and entries without base64 content, upserting the
rest into blob storage under the applicant-scoped path and collecting the
public URLs in declaration order. -/
def uploadAllDocumentsToStorage (applicantId : String)
    (documents : List (String × Option DocData)) (db : Db) :
    (List (String × String)) × Db :=
  match documents with
  | [] => ([], db)
  | (docType, d) :: rest =>
    match d with
    | none => uploadAllDocumentsToStorage applicantId rest db
    | some dd =>
      if dd.base64 = "" then uploadAllDocumentsToStorage applicantId rest db
      else
        let path := applicantId ++ "/" ++ dd.fileName
        let db2 := storageUpsert db path dd
        let r := uploadAllDocumentsToStorage applicantId rest db2
        ((docType, publicUrl path) :: r.1, r.2)

-- ═════════════════════════════════════════════════════════════════
-- Finalization Transaction (completeApplicantRegistration)
-- ═════════════════════════════════════════════════════════════════

/-- The database steps of `completeApplicantRegistration`, in source order:
create the auth user, insert the base profile, insert the applicant
profile, upload staged documents, link document rows.  Each step's mutation
is committed to the database immediately and the source performs no
rollback: a failure aborts the remainder but the completed steps' records
stay persisted.  Returns the outcome (the new applicant id, or the first
error) together with the database as mutated so far. -/
def registrationDbSteps (from_ : String) (stateData : StateData) (db : Db) :
    Except String String × Db :=
  match db.createUser stateData.email from_ with
  | Except.error e => (Except.error e, db)
  | Except.ok r1 =>
    let user := r1.1
    let db1 := r1.2
    match db1.insertProfile
        { id := user.id, user_type := "applicant", email := stateData.email
          , cellphone := from_, status := "active" } with
    | Except.error e => (Except.error e, db1)
    | Except.ok db2 =>
      match db2.insertApplicant
          { id := user.id, id_number := stateData.id_number
            , first_name := stateData.first_name, last_name := stateData.last_name
            , date_of_birth := stateData.date_of_birth, gender := stateData.gender
            , age := stateData.age, whatsapp_number := from_
            , street_address := stateData.location
            , job_title_id := stateData.selected_title_id } with
      | Except.error e => (Except.error e, db2)
      | Except.ok db3 =>
        let allDocuments : List (String × Option DocData) :=
          ("ID Document", stateData.id_document) :: ("Selfie", stateData.selfie)
            :: (stateData.uploaded_documents.getD []).map (fun kv => (kv.1, some kv.2))
        let res := uploadAllDocumentsToStorage user.id allDocuments db3
        let documentUrls := res.1
        let db4 := res.2
        let db5 := if documentUrls.length > 0
          then db4.insertDocumentRows user.id documentUrls else db4
        (Except.ok user.id, db5)

/-- `completeApplicantRegistration`: runs the database steps, whose
mutations are committed as they happen; on any step failure the catch
block sends only the generic failure message, leaving the session
untouched and the already-committed records of earlier steps in place (no
rollback); on success resets the session to IDLE keeping only the new
applicant id, then sends the success text and the follow-up buttons.  The
welcome email is external fire-and-forget (its failure is swallowed by the
source) and is not modelled.  `finalizeCount` instruments the number of
invocations. -/
def completeApplicantRegistration (from_ : String) (stateData : StateData) (env : Env) : Env :=
  let env1 := { env with finalizeCount := env.finalizeCount + 1 }
  let r := registrationDbSteps from_ stateData env.db
  let env2 := { env1 with db := r.2 }
  match r.1 with
  | Except.error _ => sendText msg_registration_failed env2
  | Except.ok aid =>
    let env3 := updateConversationState ConversationState.IDLE
      { applicant_id := some aid, user_type := some ("applicant") } env2
    let env4 := sendText (msg_registration_complete stateData) env3
    sendButtons msg_what_next env4

-- ═════════════════════════════════════════════════════════════════
-- Dialogue Engine handlers (app/api/whatsapp/webhook/route.ts)
-- ═════════════════════════════════════════════════════════════════

structure HomeAffairsResult where
  verified : Bool
  first_name : String
  last_name : String
deriving DecidableEq

/-- `verifyWithHomeAffairs`: the mocked registry always matches and returns
a fixed canonical name. -/
def verifyWithHomeAffairs (idNumber : String) : HomeAffairsResult :=
  { verified := true, first_name := "Thabo", last_name := "Mokwena" }

/-- `getApplicantByWhatsApp`. -/
def getApplicantByWhatsApp (db : Db) (phone : String) : Option ApplicantRow :=
  db.applicants.find? (fun a => a.whatsapp_number == phone)

/-- `handleGreeting`: unknown user starts the consent step; a registered
user gets the returning-user menu. -/
def handleGreeting (from_ : String) (env : Env) : Env :=
  match getApplicantByWhatsApp env.db from_ with
  | none =>
    let env := updateConversationState ConversationState.APPLICANT_REG_CONSENT {} env
    sendButtons msg_welcome_consent env
  | some app =>
    let env := updateConversationState ConversationState.IDLE
      { applicant_id := some app.id, user_type := some ("applicant") } env
    sendButtons (msg_existing_menu (app.first_name.getD ("there"))) env

/-- `text.toLowerCase().includes("job")`. -/
def hasJobSub (l : List Char) : Bool :=
  match l with
  | [] => false
  | _ :: rest => (l.take 3 == ['j', 'o', 'b']) || hasJobSub rest

/-- `handleIdleState`: free text while IDLE is a no-op with a nudge (or the
jobs stub when the text mentions jobs). -/
def handleIdleState (text : String) (env : Env) : Env :=
  if hasJobSub (jsToLower text).toList then sendText msg_jobs_soon env
  else sendText msg_type_menu env

/-- `handleApplicantRegIDNumber`. -/
def handleApplicantRegIDNumber (idNumber : String) (stateData : StateData) (env : Env) : Env :=
  let cleaned := String.mk (jsStripWs idNumber)
  if ¬ (isValidSAIDNumber cleaned = true) then sendText msg_invalid_id env
  else
    match parseSAIDNumber env.today cleaned with
    | none => sendText msg_could_not_validate env
    | some idInfo =>
      let homeAffairs := verifyWithHomeAffairs cleaned
      if ¬ (homeAffairs.verified = true) then sendText msg_id_not_found env
      else
        let env := updateConversationState ConversationState.APPLICANT_REG_ID_UPLOAD
          { stateData with
              id_number := some cleaned
              first_name := some homeAffairs.first_name
              last_name := some homeAffairs.last_name
              date_of_birth := some idInfo.dateOfBirth
              age := some idInfo.age
              gender := some idInfo.gender
              home_affairs_verified := some true } env
        sendText (msg_id_verified homeAffairs.first_name homeAffairs.last_name) env

/-- `handleApplicantRegEmail` (the verification email is external
fire-and-forget; its failure is swallowed by the source). -/
def handleApplicantRegEmail (email : String) (stateData : StateData) (env : Env) : Env :=
  let emailLower := jsTrim (jsToLower email)
  if ¬ (isValidEmail emailLower = true) then sendText msg_invalid_email env
  else
    let env := updateConversationState ConversationState.APPLICANT_REG_LOCATION
      { stateData with email := some emailLower } env
    sendText (msg_email_saved emailLower) env

def categoryRows : List ListRow :=
  [ { id := "general_worker", title := "General Worker", description := "Entry-level positions" }
  , { id := "semi_skilled", title := "Semi-Skilled", description := "Operators and drillers" }
  , { id := "skilled", title := "Skilled", description := "Artisans and technicians" }
  , { id := "professional", title := "Professional", description := "Engineers and managers" } ]

/-- `handleApplicantRegLocation`: stores the sanitized location and shows
the category list. -/
def handleApplicantRegLocation (location : String) (stateData : StateData) (env : Env) : Env :=
  let locationClean := sanitizeInput location
  let env := updateConversationState ConversationState.APPLICANT_REG_SELECTING_CATEGORY
    { stateData with location := some locationClean } env
  sendList msg_select_category ("Mining Categories") categoryRows env

/-- `skipCurrentDocument`: pops the head of the pending queue; an emptied
queue triggers finalization with the payload as read (still holding the
queue's last entry), otherwise the session is rewritten with the shorter
queue and the next prompt is sent. -/
def skipCurrentDocument (from_ : String) (currentState : ConversationState)
    (stateData : StateData) (env : Env) : Env :=
  let pendingDocs := stateData.pending_documents.getD []
  let remainingDocs := pendingDocs.drop 1
  if remainingDocs.length = 0 then completeApplicantRegistration from_ stateData env
  else
    let env := updateConversationState currentState
      { stateData with pending_documents := some remainingDocs } env
    sendText (msg_skipped_next (remainingDocs.headD (""))) env

/-- `processDocumentUpload`: stages the media for the queue head; a failed
download leaves the queue position unchanged; staging the last document
triggers finalization; otherwise the session is rewritten with the staged
document and shorter queue. -/
def processDocumentUpload (dl : MediaFetch) (from_ : String) (imageId : Option String)
    (currentState : ConversationState) (stateData : StateData) (env : Env) : Env :=
  match imageId with
  | none => sendText msg_upload_or_skip_short env
  | some mid =>
    let pendingDocs := stateData.pending_documents.getD []
    match pendingDocs with
    | [] => completeApplicantRegistration from_ stateData env
    | currentDoc :: rest =>
      match dl mid currentDoc with
      | Except.error _ => sendText msg_upload_failed env
      | Except.ok docData =>
        let uploadedDocs := setDoc (stateData.uploaded_documents.getD []) currentDoc docData
        let remainingDocs := rest
        if remainingDocs.length = 0 then
          completeApplicantRegistration from_
            { stateData with uploaded_documents := some uploadedDocs } env
        else
          let env := updateConversationState currentState
            { stateData with
                uploaded_documents := some uploadedDocs
                pending_documents := some remainingDocs } env
          sendText (msg_doc_received currentDoc (remainingDocs.headD (""))) env

/-- `handleDocumentMessage`: media without an id is re-prompted in every
state; otherwise the ID-upload, selfie and required-documents states handle
it, and any other state falls through silently. -/
def handleDocumentMessage (dl : MediaFetch) (from_ : String) (imageId : Option String)
    (currentState : ConversationState) (stateData : StateData) (env : Env) : Env :=
  match imageId with
  | none => sendText msg_upload_image_or_pdf env
  | some mid =>
    if currentState = ConversationState.APPLICANT_REG_ID_UPLOAD then
      match dl mid ("id_document") with
      | Except.error _ => sendText msg_upload_failed env
      | Except.ok docData =>
        let env := updateConversationState ConversationState.APPLICANT_REG_SELFIE
          { stateData with id_document := some docData } env
        sendText msg_id_doc_received env
    else if currentState = ConversationState.APPLICANT_REG_SELFIE then
      match dl mid ("selfie") with
      | Except.error _ => sendText msg_upload_failed env
      | Except.ok docData =>
        let env := updateConversationState ConversationState.APPLICANT_REG_EMAIL
          { stateData with selfie := some docData } env
        sendText msg_selfie_received env
    else if currentState = ConversationState.UPLOADING_REQUIRED_DOCS then
      processDocumentUpload dl from_ (some mid) currentState stateData env
    else env

/-- `handleLocationMessage`: only the location step responds (asking for a
typed city name); location messages in any other state are ignored with
just a console log. -/
def handleLocationMessage (latitude longitude : Int)
    (currentState : ConversationState) (env : Env) : Env :=
  if currentState = ConversationState.APPLICANT_REG_LOCATION then
    sendText msg_location_typed_prompt env
  else env

/-- `handleConsentSelection`. -/
def handleConsentSelection (buttonId : Option String) (env : Env) : Env :=
  if buttonId = some ("consent_yes") then
    let env := updateConversationState ConversationState.APPLICANT_REG_ID_NUMBER {} env
    sendText msg_consent_yes_next env
  else if buttonId = some ("consent_no") then
    let env := updateConversationState ConversationState.IDLE {} env
    sendText msg_consent_no env
  else env

/-- `handleCategorySelection`: filters the catalog, stores the category,
builds the (truncated) title rows and shows the title list. -/
def handleCategorySelection (category : Option String) (stateData : StateData) (env : Env) : Env :=
  let titlesForCategory := JOB_TITLES.filter (fun job => some job.category == category)
  if titlesForCategory.length = 0 then sendText msg_no_titles env
  else
    let env := updateConversationState ConversationState.APPLICANT_REG_SELECTING_TITLE
      { stateData with selected_category := category } env
    let rows := (titlesForCategory.map mkJobTitleRow).take 10
    let sectionTitle := truncatedDisplayTitle (getCategoryLabel (category.getD ("")))
    sendList msg_select_title sectionTitle rows env

/-- `handleTitleSelection`: looks up the chosen title, removes the already
collected ID Document from its checklist, writes the session into
UPLOADING_REQUIRED_DOCS with the queue, and either finalizes immediately
(empty checklist — note the source passes the unmodified `stateData` to
finalization) or prompts for the first document. -/
def handleTitleSelection (from_ : String) (titleId : Option String)
    (stateData : StateData) (env : Env) : Env :=
  match JOB_TITLES.find? (fun job => some job.id == titleId) with
  | none => sendText msg_invalid_title env
  | some selectedJob =>
    let requiredDocs := selectedJob.required_certificates.filter (fun doc => !(doc == "ID Document"))
    let env := updateConversationState ConversationState.UPLOADING_REQUIRED_DOCS
      { stateData with
          selected_title_id := titleId
          selected_title := some selectedJob.title
          selected_category := some selectedJob.category
          pending_documents := some requiredDocs
          uploaded_documents := some [] } env
    if requiredDocs.length = 0 then
      let env := sendText (msg_title_selected_nodocs selectedJob.title) env
      completeApplicantRegistration from_ stateData env
    else
      sendText (msg_title_selected_docs selectedJob.title (requiredDocs.headD (""))) env

/-- `handleInteractiveMessage`. -/
def handleInteractiveMessage (from_ : String) (buttonId : Option String)
    (currentState : ConversationState) (stateData : StateData) (env : Env) : Env :=
  if currentState = ConversationState.APPLICANT_REG_CONSENT then
    handleConsentSelection buttonId env
  else if currentState = ConversationState.APPLICANT_REG_SELECTING_CATEGORY then
    handleCategorySelection buttonId stateData env
  else if currentState = ConversationState.APPLICANT_REG_SELECTING_TITLE then
    handleTitleSelection from_ buttonId stateData env
  else if buttonId = some ("view_jobs") then sendText msg_jobs_soon env
  else if buttonId = some ("my_applications") then sendText msg_apps_soon env
  else if buttonId = some ("update_profile") then sendText msg_profile_soon env
  else env

/-- `handleTextMessage`: global commands first, then the per-step switch
with a default nudge. -/
def handleTextMessage (from_ : String) (text : String)
    (currentState : ConversationState) (stateData : StateData) (env : Env) : Env :=
  let textLower := jsTrim (jsToLower text)
  if textLower = "hi" ∨ textLower = "hello" ∨ textLower = "menu" then handleGreeting from_ env
  else if textLower = "help" then sendText msg_help env
  else
    match currentState with
    | ConversationState.IDLE => handleIdleState text env
    | ConversationState.APPLICANT_REG_ID_NUMBER =>
        handleApplicantRegIDNumber text stateData env
    | ConversationState.APPLICANT_REG_EMAIL => handleApplicantRegEmail text stateData env
    | ConversationState.APPLICANT_REG_LOCATION =>
        handleApplicantRegLocation text stateData env
    | ConversationState.UPLOADING_REQUIRED_DOCS =>
        if textLower = "skip" then skipCurrentDocument from_ currentState stateData env
        else sendText msg_upload_or_skip env
    | _ => sendText msg_menu_help env

/-- An inbound webhook event, as destructured by POST: text body,
interactive reply id, media id (image and document messages are routed
identically), shared location, or any other message type. -/
inductive IncomingEvent where
  | text (body : String)
  | interactive (buttonId : Option String)
  | media (imageId : Option String)
  | location (latitude longitude : Int)
  | other
deriving DecidableEq

/-- The message-routing core of POST: read the stored session (defaulting
to IDLE and an empty payload) and dispatch on the message type. -/
def processEvent (dl : MediaFetch) (from_ : String) (ev : IncomingEvent) (env : Env) : Env :=
  let currentState := (env.session.map (fun s => s.current_state)).getD ConversationState.IDLE
  let stateData := (env.session.map (fun s => s.data)).getD {}
  match ev with
  | IncomingEvent.text body => handleTextMessage from_ body currentState stateData env
  | IncomingEvent.interactive buttonId =>
      handleInteractiveMessage from_ buttonId currentState stateData env
  | IncomingEvent.media imageId =>
      handleDocumentMessage dl from_ imageId currentState stateData env
  | IncomingEvent.location la lo => handleLocationMessage la lo currentState env
  | IncomingEvent.other => env

/-- An HTTP response of the webhook POST handler: status code and the
success flag of the JSON body. -/
structure HttpResponse where
  status : Nat
  success : Bool
deriving DecidableEq

/-- The POST handler's response behavior: a body without a message is
acknowledged immediately; otherwise the processing outcome (ok, or any
thrown error caught by the catch block) decides only the body flag — the
catch branch returns status 200 explicitly. -/
def POST (message : Option IncomingEvent) (processingResult : Except String Env) : HttpResponse :=
  match message with
  | none => { status := 200, success := true }
  | some _ =>
    match processingResult with
    | Except.ok _ => { status := 200, success := true }
    | Except.error _ => { status := 200, success := false }

-- ═════════════════════════════════════════════════════════════════
-- Spec-side calendar (used only to state C4's calendar premise; the
-- source never consults a calendar)
-- ═════════════════════════════════════════════════════════════════

def specIsLeapYear (y : Nat) : Bool :=
  ((y % 4 == 0) && !(y % 100 == 0)) || (y % 400 == 0)

def specDaysInMonth (y m : Nat) : Nat :=
  if m = 2 then (if specIsLeapYear y then 29 else 28)
  else if m = 4 ∨ m = 6 ∨ m = 9 ∨ m = 11 then 30
  else 31

/-- The century rule `parseSAIDNumber` applies to the 2-digit year. -/
def specFullYear (yy : Nat) : Nat :=
  if yy ≤ 30 then 2000 + yy else 1900 + yy

-- ═════════════════════════════════════════════════════════════════
-- Concrete fixtures
-- ═════════════════════════════════════════════════════════════════

/-- A fully-accumulated registration payload as produced by the flow just
before finalization. -/
def samplePayload : StateData :=
  { id_number := some ("8001015009087"), first_name := some ("Thabo")
    , last_name := some ("Mokwena"), date_of_birth := some ("1980-01-01")
    , age := some 46, gender := some ("Male"), home_affairs_verified := some true
    , email := some ("thabo@example.com"), location := some ("Johannesburg")
    , selected_category := some ("general_worker"), selected_title := some ("Helper")
    , selected_title_id := some ("e8aff06e-9373-4548-880a-a892b2aa4990")
    , id_document := some { base64 := "QUJD", mimeType := "image/jpeg", fileName := "id_document_1.jpg" }
    , selfie := some { base64 := "REVG", mimeType := "image/jpeg", fileName := "selfie_1.jpg" }
    , uploaded_documents := some [] }

def sampleFrom : String := "27731112222"

def sampleDate : SimpleDate := { year := 2026, month := 10, day := 12 }

/-- Fresh environment on an empty database, session parameterized by step
and payload. -/
def mkEnv (st : ConversationState) (d : StateData) : Env :=
  { session := some { current_state := st, data := d }
    , db := Db.init, outbox := [], writes := [], finalizeCount := 0
    , today := sampleDate }

/-- A media oracle whose downloads always fail (no network); none of the
runs below reach a download. -/
def offlineDl : MediaFetch := fun _ _ => Except.error ("offline")

/-- The skip event: an inbound text message reading `skip`. -/
def skipEv : IncomingEvent := IncomingEvent.text ("skip")

/-- A database already holding an auth user registered under the sample
phone number, which makes the finalization user-creation step fail. -/
def dupDb : Db :=
  { Db.init with authUsers := [{ id := "9", email := none, phone := sampleFrom }] }

/-- Payload whose pending queue holds one last document. -/
def c2data : StateData := { samplePayload with pending_documents := some ["CV"] }

def c2env : Env :=
  { mkEnv ConversationState.UPLOADING_REQUIRED_DOCS c2data with db := dupDb }

/-- Payload with a three-element pending queue. -/
def c3data : StateData :=
  { samplePayload with
      pending_documents := some ["Proof of Address", "Matric Certificate", "CV"] }

def c3env : Env := mkEnv ConversationState.UPLOADING_REQUIRED_DOCS c3data

/-- The Helper catalog entry: its only required certificate is the ID
Document, which the flow removes, leaving an empty checklist. -/
def helperId : String := "e8aff06e-9373-4548-880a-a892b2aa4990"

def helperJob : JobTitle :=
  { id := helperId, category := "general_worker", title := "Helper"
    , required_certificates := ["ID Document"] }

def titleSelEnv : Env := mkEnv ConversationState.APPLICANT_REG_SELECTING_TITLE samplePayload

def regEnv : Env := mkEnv ConversationState.UPLOADING_REQUIRED_DOCS samplePayload

/-- Catalog entries with boundary-length titles (25 and 24 characters),
fixtures for the truncation claim. -/
def wjob25 : JobTitle :=
  { id := "w25", category := "general_worker"
    , title := "ABCDEFGHIJKLMNOPQRSTUVWXY", required_certificates := [] }

def wjob24 : JobTitle :=
  { id := "w24", category := "general_worker"
    , title := "ABCDEFGHIJKLMNOPQRSTUVWX", required_certificates := [] }

-- ═════════════════════════════════════════════════════════════════
-- Helper lemmas
-- ═════════════════════════════════════════════════════════════════

theorem startsWith27_cons (t : List Char) : startsWith27 ('2' :: '7' :: t) = true := by
  simp [startsWith27]

theorem startsWith27_fmtDigits (c : List Char) : startsWith27 (fmtDigits c) = true := by
  unfold fmtDigits
  by_cases h : c.head? = some '0'
  · rw [if_pos h, if_pos (startsWith27_cons c.tail)]
    exact startsWith27_cons c.tail
  · rw [if_neg h]
    by_cases h2 : startsWith27 c = true
    · rw [if_pos h2]
      exact h2
    · rw [if_neg h2]
      exact startsWith27_cons c

theorem all_isDigit_fmtDigits (c : List Char) (h : c.all Char.isDigit = true) :
    (fmtDigits c).all Char.isDigit = true := by
  have htail : c.tail.all Char.isDigit = true := by
    cases c with
    | nil => simp
    | cons a t => simp_all [List.all_cons]
  have h2 : ('2' : Char).isDigit = true := by decide
  have h7 : ('7' : Char).isDigit = true := by decide
  unfold fmtDigits
  by_cases h0 : c.head? = some '0' <;>
    simp only [h0, if_pos, if_neg, ite_true, ite_false] <;> split <;>
    simp_all [List.all_cons]

theorem fmtDigits_of_startsWith27 (l : List Char) (h : startsWith27 l = true) :
    fmtDigits l = l := by
  cases l with
  | nil => simp [startsWith27] at h
  | cons a t =>
    cases t with
    | nil => simp [startsWith27] at h
    | cons b t2 =>
      simp only [startsWith27, Bool.and_eq_true, beq_iff_eq] at h
      obtain ⟨ha, hb⟩ := h
      subst ha; subst hb
      unfold fmtDigits
      have hh : ('2' :: '7' :: t2).head? ≠ some '0' := by simp
      rw [if_neg hh, if_pos (startsWith27_cons t2)]

-- ═════════════════════════════════════════════════════════════════
-- Claim theorems
-- ═════════════════════════════════════════════════════════════════

/-- Claim C4: for every string that cleans to exactly 13 digits, the
validator rejects whenever the Luhn checksum over all 13 digits fails the
mod-10 test, and accepts whenever the month is in 1..12, the day is in
1..31 and is a valid day of that month's calendar, and the checksum passes;
and any input that is not exactly 13 digits after whitespace removal is
rejected. -/
theorem validateNationalId_checksum_and_date (s : String) :
    ((jsStripWs s).length = 13 → (jsStripWs s).all Char.isDigit = true →
        luhnSum ((jsStripWs s).map digitVal) % 10 ≠ 0 → isValidSAIDNumber s = false)
  ∧ ((jsStripWs s).length = 13 → (jsStripWs s).all Char.isDigit = true →
        1 ≤ twoDigitNum (jsStripWs s) 2 → twoDigitNum (jsStripWs s) 2 ≤ 12 →
        1 ≤ twoDigitNum (jsStripWs s) 4 → twoDigitNum (jsStripWs s) 4 ≤ 31 →
        twoDigitNum (jsStripWs s) 4
          ≤ specDaysInMonth (specFullYear (twoDigitNum (jsStripWs s) 0)) (twoDigitNum (jsStripWs s) 2) →
        luhnSum ((jsStripWs s).map digitVal) % 10 = 0 → isValidSAIDNumber s = true)
  ∧ (¬ ((jsStripWs s).length = 13 ∧ (jsStripWs s).all Char.isDigit = true) →
        isValidSAIDNumber s = false) := by
  refine ⟨?_, ?_, ?_⟩
  · intro h13 hdig hsum
    simp only [isValidSAIDNumber]
    rw [if_neg (not_not_intro ⟨h13, hdig⟩)]
    by_cases hm : twoDigitNum (jsStripWs s) 2 < 1 ∨ twoDigitNum (jsStripWs s) 2 > 12
    · rw [if_pos hm]
    · rw [if_neg hm]
      by_cases hd : twoDigitNum (jsStripWs s) 4 < 1 ∨ twoDigitNum (jsStripWs s) 4 > 31
      · rw [if_pos hd]
      · rw [if_neg hd]
        simp [hsum]
  · intro h13 hdig hm1 hm2 hd1 hd2 _hcal hsum
    simp only [isValidSAIDNumber]
    rw [if_neg (not_not_intro ⟨h13, hdig⟩)]
    rw [if_neg (by omega), if_neg (by omega)]
    simp [hsum]
  · intro h
    simp only [isValidSAIDNumber]
    rw [if_pos h]

/-- Witness for C4 at concrete inputs: a known-valid checksum value, the
same value with a mutated checksum digit, and a short input. -/
theorem validateNationalId_checksum_and_date_witness :
    isValidSAIDNumber ("8001015009086") = false
    ∧ isValidSAIDNumber ("8001015009087") = true
    ∧ isValidSAIDNumber ("123") = false := by
  refine ⟨(validateNationalId_checksum_and_date ("8001015009086")).1
            (by decide) (by decide) (by decide),
          (validateNationalId_checksum_and_date ("8001015009087")).2.1
            (by decide) (by decide) (by decide) (by decide) (by decide) (by decide)
            (by decide) (by decide),
          (validateNationalId_checksum_and_date ("123")).2.2 (by decide)⟩

/-- Claim C10: the parser and the validator agree — `parseSAIDNumber`
returns a result exactly when `isValidSAIDNumber` accepts the
whitespace-stripped input (for every current date fed to the age
computation). -/
theorem parseSAIDNumber_agrees_with_validator (today : SimpleDate) (s : String) :
    (parseSAIDNumber today s).isSome = isValidSAIDNumber (String.mk (jsStripWs s)) := by
  by_cases h : isValidSAIDNumber (String.mk (jsStripWs s)) = true
  · simp [parseSAIDNumber, h]
  · simp only [Bool.not_eq_true] at h
    simp [parseSAIDNumber, h]

/-- Claim C7: a job-title row of exactly 25 characters is truncated to the
24-character string made of its first 21 characters plus the three-dot
ellipsis; a title of at most 24 characters passes through unmodified; and
the resulting row title always satisfies the list sender's 24-character
row-title limit. -/
theorem listRowTitle_truncation (job : JobTitle) :
    (job.title.length = 25 →
        (mkJobTitleRow job).title = String.mk (job.title.toList.take 21) ++ "..."
        ∧ ((mkJobTitleRow job).title).length = 24)
  ∧ (job.title.length ≤ 24 → (mkJobTitleRow job).title = job.title)
  ∧ ((mkJobTitleRow job).title).length ≤ 24 := by
  have hrow : (mkJobTitleRow job).title = truncatedDisplayTitle job.title := rfl
  have hlen : ∀ l : List Char, (String.mk l).length = l.length := fun _ => rfl
  have htl : job.title.toList.length = job.title.length := rfl
  refine ⟨?_, ?_, ?_⟩
  · intro h25
    rw [hrow]
    unfold truncatedDisplayTitle
    rw [if_pos (by omega)]
    refine ⟨rfl, ?_⟩
    rw [String.length_append, hlen, List.length_take, htl, h25]
    decide
  · intro h24
    rw [hrow]
    unfold truncatedDisplayTitle
    rw [if_neg (by omega)]
  · rw [hrow]
    unfold truncatedDisplayTitle
    by_cases h : job.title.length > 24
    · rw [if_pos h]
      rw [String.length_append, hlen, List.length_take, htl]
      have : ("..." : String).length = 3 := by decide
      omega
    · rw [if_neg h]
      omega

/-- Witness for C7: a 25-character title is truncated to its first 21
characters plus the ellipsis, and a 24-character title is unchanged. -/
theorem listRowTitle_truncation_witness :
    (mkJobTitleRow wjob25).title = "ABCDEFGHIJKLMNOPQRSTU" ++ "..."
    ∧ (mkJobTitleRow wjob24).title = "ABCDEFGHIJKLMNOPQRSTUVWX" := by
  constructor
  · have h := (listRowTitle_truncation wjob25).1 (by decide)
    exact h.1.trans (by decide)
  · exact (listRowTitle_truncation wjob24).2.1 (by decide)

/-- Claim C8: the phone canonicalizer is idempotent. -/
theorem formatPhoneNumber_idempotent (phone : String) :
    formatPhoneNumber (formatPhoneNumber phone) = formatPhoneNumber phone := by
  unfold formatPhoneNumber
  have hmk : (String.mk (fmtDigits (phone.toList.filter Char.isDigit))).toList
      = fmtDigits (phone.toList.filter Char.isDigit) := rfl
  rw [hmk]
  congr 1
  have hall : (phone.toList.filter Char.isDigit).all Char.isDigit = true := by
    rw [List.all_eq_true]
    intro a ha
    exact (List.mem_filter.mp ha).2
  have hallout := all_isDigit_fmtDigits _ hall
  have hfilter : (fmtDigits (phone.toList.filter Char.isDigit)).filter Char.isDigit
      = fmtDigits (phone.toList.filter Char.isDigit) := by
    rw [List.filter_eq_self]
    intro a ha
    exact List.all_eq_true.mp hallout a ha
  rw [hfilter]
  exact fmtDigits_of_startsWith27 _ (startsWith27_fmtDigits _)

/-- Claim C9: the webhook POST handler acknowledges every request with
HTTP status 200; even when processing throws, the catch branch responds
with a failure body but explicit status 200. -/
theorem webhook_post_always_200 (message : Option IncomingEvent)
    (r : Except String Env) (ev : IncomingEvent) (e : String) :
    (POST message r).status = 200
    ∧ POST (some ev) (Except.error e) = { status := 200, success := false } := by
  constructor
  · cases message with
    | none => rfl
    | some m => cases r with
      | ok env => rfl
      | error e2 => rfl
  · rfl

-- ═════════════════════════════════════════════════════════════════
-- Helper lemmas about the Finalization Transaction
-- ═════════════════════════════════════════════════════════════════

theorem uploadAll_preserves_rows (applicantId : String)
    (l : List (String × Option DocData)) (db : Db) :
    (uploadAllDocumentsToStorage applicantId l db).2.authUsers = db.authUsers
    ∧ (uploadAllDocumentsToStorage applicantId l db).2.profiles = db.profiles
    ∧ (uploadAllDocumentsToStorage applicantId l db).2.applicants = db.applicants := by
  induction l generalizing db with
  | nil => exact ⟨rfl, rfl, rfl⟩
  | cons kv rest ih =>
    obtain ⟨docType, d⟩ := kv
    cases d with
    | none => simpa only [uploadAllDocumentsToStorage] using ih db
    | some dd =>
      simp only [uploadAllDocumentsToStorage]
      by_cases hb : dd.base64 = ""
      · rw [if_pos hb]
        exact ih db
      · rw [if_neg hb]
        exact ih (storageUpsert db (applicantId ++ "/" ++ dd.fileName) dd)

theorem insertDocumentRows_preserves (db : Db) (aid : String) (urls : List (String × String)) :
    (db.insertDocumentRows aid urls).authUsers = db.authUsers
    ∧ (db.insertDocumentRows aid urls).profiles = db.profiles
    ∧ (db.insertDocumentRows aid urls).applicants = db.applicants :=
  ⟨rfl, rfl, rfl⟩

/-- On an empty database the finalization steps succeed, creating exactly
the one auth user, base profile and applicant profile built from the
payload. -/
theorem registrationDbSteps_init (from_ : String) (p : StateData) :
    ∃ dbF,
      registrationDbSteps from_ p Db.init = (Except.ok ("0"), dbF)
      ∧ dbF.authUsers = [{ id := "0", email := p.email, phone := from_ }]
      ∧ dbF.profiles = [{ id := "0", user_type := "applicant", email := p.email
                          , cellphone := from_, status := "active" }]
      ∧ dbF.applicants = [{ id := "0", id_number := p.id_number
                            , first_name := p.first_name, last_name := p.last_name
                            , date_of_birth := p.date_of_birth, gender := p.gender
                            , age := p.age, whatsapp_number := from_
                            , street_address := p.location
                            , job_title_id := p.selected_title_id }] := by
  have toString_zero : toString (0 : Nat) = "0" := rfl
  refine ⟨_, by rfl, ?_, ?_, ?_⟩ <;>
  · split <;>
      simp [uploadAll_preserves_rows, insertDocumentRows_preserves, Db.init, toString_zero]

/-- The unconditional user-creation step fails as soon as the contact is
already registered. -/
theorem registrationDbSteps_dup (from_ : String) (p : StateData) (db : Db)
    (h : db.authUsers.any
        (fun u => (p.email.isSome && u.email == p.email) || u.phone == from_) = true) :
    registrationDbSteps from_ p db = (Except.error dupUserErr, db) := by
  unfold registrationDbSteps Db.createUser
  rw [if_pos h]

/-- Failure branch of the finalization wrapper: only the generic failure
message is appended; session and write trace are untouched, and the
database holds exactly the mutations the completed steps had already
committed (no rollback). -/
theorem completeApplicantRegistration_error (from_ : String) (p : StateData) (env : Env)
    (e : String) (dbP : Db)
    (h : registrationDbSteps from_ p env.db = (Except.error e, dbP)) :
    completeApplicantRegistration from_ p env =
      { env with
          finalizeCount := env.finalizeCount + 1
          db := dbP
          outbox := env.outbox ++ [OutMsg.text msg_registration_failed] } := by
  unfold completeApplicantRegistration
  rw [h]
  rfl

/-- Success branch of the finalization wrapper. -/
theorem completeApplicantRegistration_ok (from_ : String) (p : StateData) (env : Env)
    (aid : String) (dbF : Db)
    (h : registrationDbSteps from_ p env.db = (Except.ok aid, dbF)) :
    completeApplicantRegistration from_ p env =
      { env with
          finalizeCount := env.finalizeCount + 1
          db := dbF
          session := some { current_state := ConversationState.IDLE
                            , data := { applicant_id := some aid, user_type := some ("applicant") } }
          writes := env.writes
            ++ [{ current_state := ConversationState.IDLE
                  , data := { applicant_id := some aid, user_type := some ("applicant") } }]
          outbox := env.outbox
            ++ [OutMsg.text (msg_registration_complete p), OutMsg.buttons msg_what_next] } := by
  unfold completeApplicantRegistration
  rw [h]
  simp [sendText, sendButtons, updateConversationState]

theorem completeApplicantRegistration_finalizeCount (from_ : String) (p : StateData) (env : Env) :
    (completeApplicantRegistration from_ p env).finalizeCount = env.finalizeCount + 1 := by
  unfold completeApplicantRegistration
  cases hr : (registrationDbSteps from_ p env.db).1 <;>
    simp [hr, sendText, sendButtons, updateConversationState]

theorem skip_norm : jsTrim (jsToLower ("skip")) = "skip" := by decide

/-- Routing a `skip` text for a session in the required-documents step
reaches `skipCurrentDocument`. -/
theorem processEvent_skip (dl : MediaFetch) (from_ : String) (env : Env) (d : StateData)
    (hsess : env.session
      = some { current_state := ConversationState.UPLOADING_REQUIRED_DOCS, data := d }) :
    processEvent dl from_ skipEv env
      = skipCurrentDocument from_ ConversationState.UPLOADING_REQUIRED_DOCS d env := by
  unfold processEvent skipEv handleTextMessage
  rw [hsess]
  simp [skip_norm]

/-- Claim C1 counterexample: the claim asserts that redelivering the
finalization trigger is absorbed by existence checks which short-circuit
creation so that the second invocation completes without an error.  In the
code there are no existence checks: on a fresh database the first
invocation succeeds, and the second invocation's unconditional
user-creation step returns a duplicate-contact error, so the second
invocation takes the catch branch and sends the generic failure message
instead of completing. -/
theorem finalization_no_existence_checks_cex :
    (registrationDbSteps sampleFrom samplePayload
        (completeApplicantRegistration sampleFrom samplePayload regEnv).db).1
      = Except.error dupUserErr
    ∧ (completeApplicantRegistration sampleFrom samplePayload
        (completeApplicantRegistration sampleFrom samplePayload regEnv)).outbox
      = (completeApplicantRegistration sampleFrom samplePayload regEnv).outbox
        ++ [OutMsg.text msg_registration_failed] := by
  refine ⟨by decide, by decide⟩

/-- Claim C1 (amended): invoking the Finalization Transaction twice with
the same payload on an initially empty database leaves exactly one
identity (auth user), one base profile and one applicant profile; the
second invocation is aborted by the duplicate-contact failure of its
unconditional user-creation step — not by an existence check — and
returns normally, changing nothing except sending the generic failure
message. -/
theorem finalization_redelivery_single_records (from_ : String) (p : StateData) (env : Env)
    (hdb : env.db = Db.init) :
    (completeApplicantRegistration from_ p env).db.authUsers.length = 1
    ∧ (completeApplicantRegistration from_ p env).db.profiles.length = 1
    ∧ (completeApplicantRegistration from_ p env).db.applicants.length = 1
    ∧ completeApplicantRegistration from_ p (completeApplicantRegistration from_ p env)
        = { completeApplicantRegistration from_ p env with
            finalizeCount := (completeApplicantRegistration from_ p env).finalizeCount + 1
            outbox := (completeApplicantRegistration from_ p env).outbox
              ++ [OutMsg.text msg_registration_failed] } := by
  obtain ⟨dbF, hok, hAu, hPr, hAp⟩ := registrationDbSteps_init from_ p
  have hok1 : registrationDbSteps from_ p env.db = (Except.ok ("0"), dbF) := by
    rw [hdb]
    exact hok
  have h1 := completeApplicantRegistration_ok from_ p env ("0") dbF hok1
  have hdup : dbF.authUsers.any
      (fun u => (p.email.isSome && u.email == p.email) || u.phone == from_) = true := by
    rw [hAu]
    simp
  have hfail : registrationDbSteps from_ p (completeApplicantRegistration from_ p env).db
      = (Except.error dupUserErr, (completeApplicantRegistration from_ p env).db) := by
    rw [h1]
    exact registrationDbSteps_dup from_ p dbF hdup
  have h2 := completeApplicantRegistration_error from_ p
      (completeApplicantRegistration from_ p env) dupUserErr
      ((completeApplicantRegistration from_ p env).db) hfail
  refine ⟨?_, ?_, ?_, h2⟩ <;> rw [h1] <;> simp [hAu, hPr, hAp]

/-- Witness for C1 (amended) at the sample payload on an empty database. -/
theorem finalization_redelivery_single_records_witness :
    (completeApplicantRegistration sampleFrom samplePayload regEnv).db.authUsers.length = 1
    ∧ (completeApplicantRegistration sampleFrom samplePayload regEnv).db.profiles.length = 1
    ∧ (completeApplicantRegistration sampleFrom samplePayload regEnv).db.applicants.length = 1
    ∧ completeApplicantRegistration sampleFrom samplePayload
        (completeApplicantRegistration sampleFrom samplePayload regEnv)
        = { completeApplicantRegistration sampleFrom samplePayload regEnv with
            finalizeCount :=
              (completeApplicantRegistration sampleFrom samplePayload regEnv).finalizeCount + 1
            outbox := (completeApplicantRegistration sampleFrom samplePayload regEnv).outbox
              ++ [OutMsg.text msg_registration_failed] } :=
  finalization_redelivery_single_records sampleFrom samplePayload regEnv rfl

/-- Claim C2: when any finalization record-creation step fails, the stored
session (step and payload) and the write trace are left unchanged, the
user receives only the generic failure message, the database holds exactly
the mutations the already-completed steps had committed (the source rolls
nothing back), and — because the session still sits in the
pre-finalization step with its queue — re-sending the trigger event
invokes finalization again. -/
theorem finalization_failure_preserves_session (dl : MediaFetch) (from_ : String)
    (p : StateData) (env : Env) (e : String)
    (hfail : (registrationDbSteps from_ p env.db).1 = Except.error e) :
    (completeApplicantRegistration from_ p env).session = env.session
    ∧ (completeApplicantRegistration from_ p env).writes = env.writes
    ∧ (completeApplicantRegistration from_ p env).outbox
        = env.outbox ++ [OutMsg.text msg_registration_failed]
    ∧ (completeApplicantRegistration from_ p env).db
        = (registrationDbSteps from_ p env.db).2
    ∧ (∀ d : StateData,
        env.session = some { current_state := ConversationState.UPLOADING_REQUIRED_DOCS
                             , data := d } →
        (d.pending_documents.getD []).drop 1 = [] →
        (processEvent dl from_ skipEv (completeApplicantRegistration from_ p env)).finalizeCount
          = env.finalizeCount + 2) := by
  have hpair : registrationDbSteps from_ p env.db
      = (Except.error e, (registrationDbSteps from_ p env.db).2) := by
    rw [← hfail]
  have hC := completeApplicantRegistration_error from_ p env e
      ((registrationDbSteps from_ p env.db).2) hpair
  rw [hC]
  refine ⟨rfl, rfl, rfl, rfl, ?_⟩
  intro d hsess hdrop
  set env1 : Env :=
    { env with
        finalizeCount := env.finalizeCount + 1
        db := (registrationDbSteps from_ p env.db).2
        outbox := env.outbox ++ [OutMsg.text msg_registration_failed] } with henv1
  have hsess1 : env1.session
      = some { current_state := ConversationState.UPLOADING_REQUIRED_DOCS, data := d } := hsess
  rw [processEvent_skip dl from_ env1 d hsess1]
  unfold skipCurrentDocument
  simp only [hdrop]
  simp [completeApplicantRegistration_finalizeCount]

/-- Witness for C2: a database already holding the contact makes the
user-creation step fail; session and traces are untouched, the database is
exactly the (here unmutated) partial-step database, only the generic
message is sent, and a further `skip` re-invokes finalization. -/
theorem finalization_failure_preserves_session_witness :
    (completeApplicantRegistration sampleFrom samplePayload c2env).session = c2env.session
    ∧ (completeApplicantRegistration sampleFrom samplePayload c2env).writes = c2env.writes
    ∧ (completeApplicantRegistration sampleFrom samplePayload c2env).outbox
        = c2env.outbox ++ [OutMsg.text msg_registration_failed]
    ∧ (completeApplicantRegistration sampleFrom samplePayload c2env).db
        = (registrationDbSteps sampleFrom samplePayload c2env.db).2
    ∧ (processEvent offlineDl sampleFrom skipEv
        (completeApplicantRegistration sampleFrom samplePayload c2env)).finalizeCount
        = c2env.finalizeCount + 2 := by
  have h := finalization_failure_preserves_session offlineDl sampleFrom samplePayload c2env
    dupUserErr (by decide)
  exact ⟨h.1, h.2.1, h.2.2.1, h.2.2.2.1, h.2.2.2.2 c2data rfl (by decide)⟩

/-- Claim C3: from the required-documents step with a three-element queue,
three consecutive skip events drive the stored queue through its two
tails, never invoking finalization before the third skip; the third skip
invokes finalization exactly once, after which the session is IDLE with no
pending queue and no write of the third event re-enters the upload
step. -/
theorem uploading_docs_three_skips (dl : MediaFetch) (from_ A B C : String) (d : StateData)
    (env : Env)
    (hsess : env.session
      = some { current_state := ConversationState.UPLOADING_REQUIRED_DOCS, data := d })
    (hpend : d.pending_documents = some [A, B, C])
    (hdb : env.db = Db.init) :
    (processEvent dl from_ skipEv env).session
        = some { current_state := ConversationState.UPLOADING_REQUIRED_DOCS
                 , data := { d with pending_documents := some [B, C] } }
    ∧ (processEvent dl from_ skipEv env).finalizeCount = env.finalizeCount
    ∧ (processEvent dl from_ skipEv (processEvent dl from_ skipEv env)).session
        = some { current_state := ConversationState.UPLOADING_REQUIRED_DOCS
                 , data := { d with pending_documents := some [C] } }
    ∧ (processEvent dl from_ skipEv (processEvent dl from_ skipEv env)).finalizeCount
        = env.finalizeCount
    ∧ (processEvent dl from_ skipEv (processEvent dl from_ skipEv
        (processEvent dl from_ skipEv env))).finalizeCount = env.finalizeCount + 1
    ∧ (processEvent dl from_ skipEv (processEvent dl from_ skipEv
        (processEvent dl from_ skipEv env))).session
        = some { current_state := ConversationState.IDLE
                 , data := { applicant_id := some ("0"), user_type := some ("applicant") } }
    ∧ ((processEvent dl from_ skipEv (processEvent dl from_ skipEv
          (processEvent dl from_ skipEv env))).writes.drop
          (processEvent dl from_ skipEv (processEvent dl from_ skipEv env)).writes.length).all
        (fun w => !(w.current_state == ConversationState.UPLOADING_REQUIRED_DOCS)) = true := by
  have he1 : processEvent dl from_ skipEv env
      = sendText (msg_skipped_next B)
          (updateConversationState ConversationState.UPLOADING_REQUIRED_DOCS
            { d with pending_documents := some [B, C] } env) := by
    rw [processEvent_skip dl from_ env d hsess]
    unfold skipCurrentDocument
    rw [hpend]
    simp [msg_skipped_next]
  set d1 : StateData := { d with pending_documents := some [B, C] } with hd1
  set env1 : Env := sendText (msg_skipped_next B)
      (updateConversationState ConversationState.UPLOADING_REQUIRED_DOCS d1 env) with henv1
  have hsess1 : env1.session
      = some { current_state := ConversationState.UPLOADING_REQUIRED_DOCS, data := d1 } := rfl
  have he2 : processEvent dl from_ skipEv env1
      = sendText (msg_skipped_next C)
          (updateConversationState ConversationState.UPLOADING_REQUIRED_DOCS
            { d1 with pending_documents := some [C] } env1) := by
    rw [processEvent_skip dl from_ env1 d1 hsess1]
    unfold skipCurrentDocument
    simp [hd1, msg_skipped_next]
  set d2 : StateData := { d1 with pending_documents := some [C] } with hd2
  set env2 : Env := sendText (msg_skipped_next C)
      (updateConversationState ConversationState.UPLOADING_REQUIRED_DOCS d2 env1) with henv2
  have hsess2 : env2.session
      = some { current_state := ConversationState.UPLOADING_REQUIRED_DOCS, data := d2 } := rfl
  have hdb2 : env2.db = Db.init := hdb
  obtain ⟨dbF, hok, hAu, hPr, hAp⟩ := registrationDbSteps_init from_ d2
  have hok2 : registrationDbSteps from_ d2 env2.db = (Except.ok ("0"), dbF) := by
    rw [hdb2]
    exact hok
  have he3 : processEvent dl from_ skipEv env2
      = completeApplicantRegistration from_ d2 env2 := by
    rw [processEvent_skip dl from_ env2 d2 hsess2]
    unfold skipCurrentDocument
    simp [hd2]
  have hfin := completeApplicantRegistration_ok from_ d2 env2 ("0") dbF hok2
  rw [he1, he2, he3, hfin]
  refine ⟨rfl, rfl, rfl, rfl, rfl, rfl, ?_⟩
  simp [sendText, updateConversationState, List.drop_left]

/-- Witness for C3 at a concrete three-document queue. -/
theorem uploading_docs_three_skips_witness :
    (processEvent offlineDl sampleFrom skipEv (processEvent offlineDl sampleFrom skipEv
        (processEvent offlineDl sampleFrom skipEv c3env))).finalizeCount = 1
    ∧ (processEvent offlineDl sampleFrom skipEv (processEvent offlineDl sampleFrom skipEv
        (processEvent offlineDl sampleFrom skipEv c3env))).session
        = some { current_state := ConversationState.IDLE
                 , data := { applicant_id := some ("0"), user_type := some ("applicant") } } := by
  have h := uploading_docs_three_skips offlineDl sampleFrom ("Proof of Address")
    "Matric Certificate" "CV" c3data c3env rfl rfl rfl
  exact ⟨h.2.2.2.2.1, h.2.2.2.2.2.1⟩

/-- Claim C5 counterexample: selecting the Helper title (whose checklist
minus the collected ID Document is empty) does make the stored session
enter the UPLOADING_REQUIRED_DOCS step — the handler writes that step,
with an empty queue, before invoking finalization — contradicting the
claim that the session does not enter the upload state. -/
theorem titleSelection_enters_upload_state_cex :
    ((processEvent offlineDl sampleFrom (IncomingEvent.interactive (some helperId))
        titleSelEnv).writes.any
      (fun w => w.current_state == ConversationState.UPLOADING_REQUIRED_DOCS)) = true := by
  decide

/-- Claim C5 (amended): for a session in the title-selection step, choosing
a title whose required-document list minus the ID Document is empty invokes
the Finalization Transaction immediately (exactly once, within the same
event, with no upload prompt ever sent); however the session store is
first written with the UPLOADING_REQUIRED_DOCS step and an empty pending
queue, and ends at IDLE when finalization succeeds. -/
theorem titleSelection_empty_docs_finalizes (dl : MediaFetch) (from_ titleId : String)
    (job : JobTitle) (d : StateData) (env : Env)
    (hsess : env.session
      = some { current_state := ConversationState.APPLICANT_REG_SELECTING_TITLE, data := d })
    (hfind : JOB_TITLES.find? (fun j => some j.id == some titleId) = some job)
    (hdocs : job.required_certificates.filter (fun doc => !(doc == "ID Document")) = [])
    (hdb : env.db = Db.init) :
    (processEvent dl from_ (IncomingEvent.interactive (some titleId)) env).finalizeCount
        = env.finalizeCount + 1
    ∧ (processEvent dl from_ (IncomingEvent.interactive (some titleId)) env).writes
        = env.writes
          ++ [{ current_state := ConversationState.UPLOADING_REQUIRED_DOCS
                , data := { d with
                    selected_title_id := some titleId
                    selected_title := some job.title
                    selected_category := some job.category
                    pending_documents := some []
                    uploaded_documents := some [] } }
            , { current_state := ConversationState.IDLE
                , data := { applicant_id := some ("0"), user_type := some ("applicant") } }]
    ∧ (processEvent dl from_ (IncomingEvent.interactive (some titleId)) env).session
        = some { current_state := ConversationState.IDLE
                 , data := { applicant_id := some ("0"), user_type := some ("applicant") } }
    ∧ (processEvent dl from_ (IncomingEvent.interactive (some titleId)) env).outbox
        = env.outbox
          ++ [OutMsg.text (msg_title_selected_nodocs job.title)
            , OutMsg.text (msg_registration_complete d), OutMsg.buttons msg_what_next] := by
  have hdisp : processEvent dl from_ (IncomingEvent.interactive (some titleId)) env
      = handleTitleSelection from_ (some titleId) d env := by
    unfold processEvent handleInteractiveMessage
    rw [hsess]
    simp
  rw [hdisp]
  unfold handleTitleSelection
  rw [hfind]
  simp only [hdocs]
  set d1 : StateData :=
    { d with
        selected_title_id := some titleId
        selected_title := some job.title
        selected_category := some job.category
        pending_documents := some []
        uploaded_documents := some [] } with hd1
  set env1 : Env := sendText (msg_title_selected_nodocs job.title)
      (updateConversationState ConversationState.UPLOADING_REQUIRED_DOCS d1 env) with henv1
  obtain ⟨dbF, hok, hAu, hPr, hAp⟩ := registrationDbSteps_init from_ d
  have hok1 : registrationDbSteps from_ d env1.db = (Except.ok ("0"), dbF) := by
    have hdb1 : env1.db = Db.init := hdb
    rw [hdb1]
    exact hok
  have hfin := completeApplicantRegistration_ok from_ d env1 ("0") dbF hok1
  simp only [List.length_nil, if_pos rfl]
  rw [hfin]
  refine ⟨rfl, ?_, rfl, ?_⟩ <;> simp [henv1, sendText, updateConversationState]

/-- Witness for C5 (amended): the Helper title, selected from a session in
the title-selection step on an empty database. -/
theorem titleSelection_empty_docs_finalizes_witness :
    (processEvent offlineDl sampleFrom (IncomingEvent.interactive (some helperId))
        titleSelEnv).finalizeCount = 1
    ∧ (processEvent offlineDl sampleFrom (IncomingEvent.interactive (some helperId))
        titleSelEnv).session
      = some { current_state := ConversationState.IDLE
               , data := { applicant_id := some ("0"), user_type := some ("applicant") } } := by
  have h := titleSelection_empty_docs_finalizes offlineDl sampleFrom helperId helperJob
    samplePayload titleSelEnv rfl (by decide) (by decide) rfl
  exact ⟨h.1, h.2.2.1⟩

/-- Claim C6 counterexample: a shared-location message received while the
session awaits an email address is dropped without any response and
without any session write — the handler only logs it — contradicting the
claim that a mismatched input type always produces a re-prompt and is
never silently dropped. -/
theorem location_event_silent_drop_cex :
    processEvent offlineDl sampleFrom (IncomingEvent.location 7 7)
        (mkEnv ConversationState.APPLICANT_REG_EMAIL samplePayload)
      = mkEnv ConversationState.APPLICANT_REG_EMAIL samplePayload := by
  decide

/-- Claim C6 (amended): a mismatched input type never crashes the engine
and never advances the stored step; mismatched text in the
required-documents step produces the upload re-prompt and non-command text
in the other non-text steps (consent, the two photo-upload steps and the
two selection steps) draws the default menu nudge, but a location message
outside the location step and a media message outside the media-accepting
steps are ignored silently, with no response at all. -/
theorem mismatched_input_no_advance (dl : MediaFetch) (from_ : String) (la lo : Int)
    (mid t : String) (env : Env) (st : ConversationState)
    (hst : (env.session.map (fun s => s.current_state)).getD ConversationState.IDLE = st) :
    (st ≠ ConversationState.APPLICANT_REG_LOCATION →
        processEvent dl from_ (IncomingEvent.location la lo) env = env)
    ∧ (st ≠ ConversationState.APPLICANT_REG_ID_UPLOAD →
        st ≠ ConversationState.APPLICANT_REG_SELFIE →
        st ≠ ConversationState.UPLOADING_REQUIRED_DOCS →
        processEvent dl from_ (IncomingEvent.media (some mid)) env = env)
    ∧ (st = ConversationState.UPLOADING_REQUIRED_DOCS →
        jsTrim (jsToLower t) ≠ "hi" → jsTrim (jsToLower t) ≠ "hello" →
        jsTrim (jsToLower t) ≠ "menu" → jsTrim (jsToLower t) ≠ "help" →
        jsTrim (jsToLower t) ≠ "skip" →
        processEvent dl from_ (IncomingEvent.text t) env = sendText msg_upload_or_skip env)
    ∧ ((st = ConversationState.APPLICANT_REG_CONSENT
          ∨ st = ConversationState.APPLICANT_REG_ID_UPLOAD
          ∨ st = ConversationState.APPLICANT_REG_SELFIE
          ∨ st = ConversationState.APPLICANT_REG_SELECTING_CATEGORY
          ∨ st = ConversationState.APPLICANT_REG_SELECTING_TITLE) →
        jsTrim (jsToLower t) ≠ "hi" → jsTrim (jsToLower t) ≠ "hello" →
        jsTrim (jsToLower t) ≠ "menu" → jsTrim (jsToLower t) ≠ "help" →
        processEvent dl from_ (IncomingEvent.text t) env = sendText msg_menu_help env) := by
  refine ⟨?_, ?_, ?_, ?_⟩
  · intro hne
    unfold processEvent handleLocationMessage
    rw [hst]
    dsimp only
    rw [if_neg hne]
  · intro h1 h2 h3
    unfold processEvent handleDocumentMessage
    rw [hst]
    dsimp only
    rw [if_neg h1, if_neg h2, if_neg h3]
  · intro hup h1 h2 h3 h4 h5
    unfold processEvent handleTextMessage
    rw [hst, hup]
    dsimp only
    rw [if_neg (by simp [h1, h2, h3]), if_neg h4, if_neg h5]
  · intro hd h1 h2 h3 h4
    rcases hd with h | h | h | h | h <;>
      (subst h
       unfold processEvent handleTextMessage
       rw [hst]
       dsimp only
       rw [if_neg (by simp [h1, h2, h3]), if_neg h4])

/-- Witness for C6 (amended): a location and a media message in the
consent step are dropped silently; free text in the required-documents
step draws the upload re-prompt and free text in the consent step draws
the default menu nudge, in both cases without a session write. -/
theorem mismatched_input_no_advance_witness :
    processEvent offlineDl sampleFrom (IncomingEvent.location 0 0)
        (mkEnv ConversationState.APPLICANT_REG_CONSENT samplePayload)
      = mkEnv ConversationState.APPLICANT_REG_CONSENT samplePayload
    ∧ processEvent offlineDl sampleFrom (IncomingEvent.media (some ("m1")))
        (mkEnv ConversationState.APPLICANT_REG_CONSENT samplePayload)
      = mkEnv ConversationState.APPLICANT_REG_CONSENT samplePayload
    ∧ processEvent offlineDl sampleFrom (IncomingEvent.text ("hello world"))
        (mkEnv ConversationState.UPLOADING_REQUIRED_DOCS samplePayload)
      = sendText msg_upload_or_skip
          (mkEnv ConversationState.UPLOADING_REQUIRED_DOCS samplePayload)
    ∧ processEvent offlineDl sampleFrom (IncomingEvent.text ("hello world"))
        (mkEnv ConversationState.APPLICANT_REG_CONSENT samplePayload)
      = sendText msg_menu_help
          (mkEnv ConversationState.APPLICANT_REG_CONSENT samplePayload) := by
  have h1 := mismatched_input_no_advance offlineDl sampleFrom 0 0 "m1" "hello world"
    (mkEnv ConversationState.APPLICANT_REG_CONSENT samplePayload)
    ConversationState.APPLICANT_REG_CONSENT rfl
  have h2 := mismatched_input_no_advance offlineDl sampleFrom 0 0 "m1" "hello world"
    (mkEnv ConversationState.UPLOADING_REQUIRED_DOCS samplePayload)
    ConversationState.UPLOADING_REQUIRED_DOCS rfl
  exact ⟨h1.1 (by decide), h1.2.1 (by decide) (by decide) (by decide),
    h2.2.2.1 rfl (by decide) (by decide) (by decide) (by decide) (by decide),
    h1.2.2.2 (Or.inl rfl) (by decide) (by decide) (by decide) (by decide)⟩
